import Mathlib

/-!
Verification development for the go-inspector plugin
(`src/go_inspector/plugin.py`): a shallow embedding in Lean 4 of the
wrapper around the external GoReSym extractor, together with theorems
about its behaviour.

The Python module `plugin.py` contains three functions of interest:

* `is_macho(location)` — content-type test for Mach-O files;
* `is_executable_binary(location)` — filesystem and content-type gate;
* `collect_and_parse_symbols(location, check_type=True, **kwargs)` —
  the scanner entry point: it optionally gates on the content type,
  creates a temporary directory, runs the GoReSym executable once,
  raises on a nonzero return code, decodes GoReSym's JSON standard
  output, sorts the `Files` list, defaults falsy `Files`/`BuildInfo`
  entries to `[]`/`{}`, and always deletes the temporary directory in a
  `finally` block.

The filesystem and content-type oracles are modelled as a record of the
facts the Python code queries about the one location it is given
(`FileInfo`).  The external GoReSym process is modelled as a value
`ExecOutcome` describing its return code, decoded standard output and
standard error for that location; since the extractor is a fixed program
run on fixed input bytes, one run is one such value.  JSON values are
modelled by the inductive type `J`, with Python truthiness `pyTruthy`.
-/

namespace GoInspector

/-- Python's `str.lower()` restricted to ASCII, realised structurally so
that concrete calls evaluate in the kernel.  The constants the plugin
lowercases and compares (`mach-o`, `application/x-mach-binary`) are
ASCII, where Python's Unicode lowering and ASCII lowering agree. -/
def strToLower (s : String) : String := String.mk (s.data.map Char.toLower)

/-- Character-list version of Python's `str.startswith`. -/
def chStarts : List Char → List Char → Bool
  | [], _ => true
  | _ :: _, [] => false
  | p :: ps, c :: cs => p == c && chStarts ps cs

/-- Python's `s.startswith(pre)`. -/
def strStartsWith (s pre : String) : Bool := chStarts pre.data s.data

/-- Strict lexicographic comparison of character lists by code point,
the order Python uses to compare strings.  Realised as a structural
recursion so that concrete comparisons evaluate in the kernel. -/
def strLtChars : List Char → List Char → Bool
  | [], [] => false
  | [], _ :: _ => true
  | _ :: _, [] => false
  | a :: as, b :: bs =>
    if a < b then true
    else if b < a then false
    else strLtChars as bs

/-- Python's `a <= b` on strings: lexicographic by code point, which for
UTF-8 encoded strings coincides with byte-value order. -/
def strLe (a b : String) : Bool := !(strLtChars b.data a.data)

instance : DecidableRel (fun a b : String => strLe a b = true) :=
  fun a b => inferInstanceAs (Decidable (strLe a b = true))

/-- A JSON value, as produced by `json.load` on GoReSym's standard
output.  Numbers are modelled as integers: the fields the wrapper
touches are arrays, objects and strings, and only truthiness of a
number matters to it. -/
inductive J where
  | null : J
  | bool : Bool → J
  | num : Int → J
  | str : String → J
  | arr : List J → J
  | obj : List (String × J) → J

/-- Python truthiness of a JSON value: `None`, `False`, `0`, `""`,
`[]` and `{}` are falsy, everything else is truthy.  This is the test
applied by the `or` in `symbols.get("Files") or []` and
`symbols.get("BuildInfo") or {}`. -/
def pyTruthy : J → Bool
  | J.null => false
  | J.bool b => b
  | J.num n => n != 0
  | J.str s => !s.isEmpty
  | J.arr xs => !xs.isEmpty
  | J.obj kvs => !kvs.isEmpty

/-- Model of `d.get(k)` on a decoded JSON object: the value stored under the
first occurrence of `k`, or `None` when the key is absent. -/
def jget (kvs : List (String × J)) (k : String) : J :=
  match kvs.lookup k with
  | some v => v
  | none => J.null

/-- Errors a `collect_and_parse_symbols` call can raise.
`exception s` is the `raise Exception(open(err).read())` on a nonzero
extractor return code, carrying the extractor's standard-error text
`s`; `jsonDecodeError` is `json.load` failing on non-JSON standard
output; `attributeError` is `.get` on a non-dict or `.sort` on a
non-list; `typeError` is `list.sort` on uncomparable elements. -/
inductive PyErr where
  | exception : String → PyErr
  | jsonDecodeError : PyErr
  | attributeError : PyErr
  | typeError : PyErr
deriving DecidableEq

/-- The string payload of a JSON value, when it is a string. -/
def toStr : J → Option String
  | J.str s => some s
  | _ => none

/-- Whether every element of a JSON array is a string. -/
def allStrings (xs : List J) : Bool :=
  xs.all fun x => (toStr x).isSome

/-- Model of `files.sort()` on the decoded `Files` array.  GoReSym emits
`Files` as an array of strings; on an all-string array Python's
in-place sort yields the unique ordering by code point, which for
strings coincides with byte-value order of their UTF-8 encodings, and
is modelled here by `List.insertionSort` under `strLe` (any correct
sorting algorithm returns the same list over this linear order).  An
array holding a non-string element is modelled as a sort failure
(Python raises `TypeError` whenever two of its elements are
uncomparable; GoReSym never emits such an array). -/
def pySortStrings (xs : List J) : Except PyErr (List String) :=
  if allStrings xs then
    Except.ok (List.insertionSort (fun a b => strLe a b = true) (xs.filterMap toStr))
  else
    Except.error PyErr.typeError

/-- The mapping stored under the `go_symbols` key of the returned
dictionary: `dict(build_info=build_info, file_paths=files)`.
`build_info` is the decoded `BuildInfo` JSON value passed through
untouched (defaulted to `{}` when falsy), `file_paths` the sorted
`Files` list. -/
structure GoSymbols where
  build_info : J
  file_paths : List String

/-- The dictionary returned by `collect_and_parse_symbols`:
`dict(go_symbols=...)`. -/
structure ScanResult where
  go_symbols : GoSymbols

/-- Model of `symbols.get("Files") or []`: the decoded `Files` entry, with a
falsy value (absent key, `null`, `[]`, …) replaced by the empty
list. -/
def filesValue (kvs : List (String × J)) : J :=
  if pyTruthy (jget kvs "Files") then jget kvs "Files" else J.arr []

/-- Model of `symbols.get("BuildInfo") or {}`: the decoded `BuildInfo` entry,
with a falsy value (absent key, `null`, `{}`, …) replaced by the empty
mapping. -/
def buildInfoValue (kvs : List (String × J)) : J :=
  if pyTruthy (jget kvs "BuildInfo") then jget kvs "BuildInfo" else J.obj []

/-- Model of `files.sort()` applied to the fetched `Files` value: sorting works
on a list and raises `AttributeError` on any other value (only lists
have a `.sort` method). -/
def sortedFiles : J → Except PyErr (List String)
  | J.arr xs => pySortStrings xs
  | _ => Except.error PyErr.attributeError

/-- The result-assembly step of `collect_and_parse_symbols`
(`plugin.py` lines 121–127): from the JSON value decoded from
GoReSym's standard output, take `Files` (defaulting a falsy value to
`[]`), sort it in place, take `BuildInfo` (defaulting a falsy value to
`{}`), and build the result dictionary.  `.get` on a non-object raises
`AttributeError` as in Python. -/
def assemble (symbols : J) : Except PyErr ScanResult :=
  match symbols with
  | J.obj kvs =>
    (sortedFiles (filesValue kvs)).map fun files =>
      { go_symbols := { build_info := buildInfoValue kvs, file_paths := files } }
  | _ => Except.error PyErr.attributeError

/-- The facts the Python code queries about the location it is given:
`os.path.exists`, `os.path.isfile`, and the typecode content-type
oracle's `is_elf`, `is_winexe`, `filetype_file` and `mimetype_file`
attributes. -/
structure FileInfo where
  path_exists : Bool
  is_file : Bool
  is_elf : Bool
  is_winexe : Bool
  filetype_file : String
  mimetype_file : String

/-- Model of `is_macho(location)`: the lowercased file type starts with
`mach-o`, or the lowercased mime type starts with
`application/x-mach-binary`. -/
def is_macho (info : FileInfo) : Bool :=
  strStartsWith (strToLower info.filetype_file) "mach-o" ||
    strStartsWith (strToLower info.mimetype_file) "application/x-mach-binary"

/-- Model of `is_executable_binary(location)`: false when the path does not
exist or is not a regular file; otherwise true exactly when the
content type is ELF, a Windows executable, or Mach-O. -/
def is_executable_binary (info : FileInfo) : Bool :=
  if !info.path_exists then false
  else if !info.is_file then false
  else if !(info.is_elf || info.is_winexe || is_macho info) then false
  else true

/-- One run of the external GoReSym executable on the given location:
its process return code, its standard output after `json.load`
(`none` when the output is not valid JSON), and the text of its
standard-error file. -/
structure ExecOutcome where
  rc : Nat
  stdout : Option J
  stderr : String

/-- What one call of `collect_and_parse_symbols` does: its outcome
(`Except.ok none` is Python's bare `return`, `Except.ok (some r)` a
returned result dictionary, `Except.error e` a raised exception),
whether the temporary directory for the run was created, whether it
was deleted before the call returned, and how many times the external
extractor was invoked. -/
structure RunResult where
  outcome : Except PyErr (Option ScanResult)
  tempDirCreated : Bool
  tempDirDeleted : Bool
  extractorCalls : Nat

/-- The `try` body of `collect_and_parse_symbols` (`plugin.py` lines
110–127): run GoReSym, raise `Exception` with the standard-error text
when the return code is nonzero, otherwise decode the standard output
with `json.load` and assemble the result. -/
def run_goresym (ext : ExecOutcome) : Except PyErr ScanResult :=
  if ext.rc != 0 then
    Except.error (PyErr.exception ext.stderr)
  else
    match ext.stdout with
    | none => Except.error PyErr.jsonDecodeError
    | some symbols => assemble symbols

/-- Model of `collect_and_parse_symbols(location, check_type)`: when
`check_type` is set and the location is not an executable binary,
return `None` at once (no temporary directory, no extractor run).
Otherwise create the temporary directory, invoke GoReSym exactly once
via `run_goresym`; the `finally` block deletes the temporary directory
on the return path and on every raise path alike. -/
def collect_and_parse_symbols (info : FileInfo) (ext : ExecOutcome)
    (check_type : Bool) : RunResult :=
  if check_type && !(is_executable_binary info) then
    { outcome := Except.ok none
      tempDirCreated := false
      tempDirDeleted := false
      extractorCalls := 0 }
  else
    { outcome := (run_goresym ext).map some
      tempDirCreated := true
      tempDirDeleted := true
      extractorCalls := 1 }

/-- The typecode facts for a plain-text file: it exists and is a
regular file, but is neither ELF, nor a Windows executable, nor
Mach-O. -/
def textFileInfo : FileInfo :=
  { path_exists := true
    is_file := true
    is_elf := false
    is_winexe := false
    filetype_file := "ASCII text"
    mimetype_file := "text/plain" }

/-- The typecode facts for `windows.exe`, the non-Go PE executable of
the repository test `test_goresym_with_windows_exe`: a regular file
whose content type is a Windows executable, so it passes the
`is_executable_binary` gate. -/
def windowsExeInfo : FileInfo :=
  { path_exists := true
    is_file := true
    is_elf := false
    is_winexe := true
    filetype_file := "PE32+ executable (console) x86-64, for MS Windows"
    mimetype_file := "application/vnd.microsoft.portable-executable" }

/-- The facts for a location that does not exist on the filesystem. -/
def missingFileInfo : FileInfo :=
  { path_exists := false
    is_file := false
    is_elf := false
    is_winexe := false
    filetype_file := "cannot open"
    mimetype_file := "application/octet-stream" }

/-- A failing GoReSym run: nonzero return code and a diagnostic on
standard error.  The repository tests `test_goresym_with_windows_exe`
and `test_goresym_with_elf` pin this behaviour of the extractor for
valid non-Go executables: both assert that `collect_and_parse_symbols`
raises on such inputs, and on the code path a raise requires the
extractor run to fail. -/
def goresymFailure : ExecOutcome :=
  { rc := 1
    stdout := none
    stderr := "failed to parse file" }

/-- A decoded GoReSym output for a small Go binary: two source file
paths (listed out of order) and a populated build-info object. -/
def goOutputSample : J :=
  J.obj
    [("Files", J.arr [J.str "/src/app/main.go", J.str "/src/app/lib.go"]),
     ("BuildInfo",
      J.obj
        [("go_version", J.str "go1.22.1"),
         ("module_path", J.str "example.com/app"),
         ("module_version", J.str "(devel)"),
         ("dependencies", J.arr [])])]

/-- A successful GoReSym run whose decoded standard output is
`goOutputSample`. -/
def goExecSample : ExecOutcome :=
  { rc := 0
    stdout := some goOutputSample
    stderr := "" }

/-- The typecode facts for `arm_gentoo_elf`, the non-Go ELF executable
of the repository test `test_goresym_with_elf`: a regular file whose
content type is ELF, so it passes the `is_executable_binary` gate. -/
def gentooElfInfo : FileInfo :=
  { path_exists := true
    is_file := true
    is_elf := true
    is_winexe := false
    filetype_file := "ELF 32-bit LSB executable, ARM, EABI5"
    mimetype_file := "application/x-executable" }

/-- A GoReSym run failing on an ELF input, as pinned by the repository
test `test_goresym_with_elf`. -/
def goresymElfFailure : ExecOutcome :=
  { rc := 1
    stdout := none
    stderr := "unsupported binary" }

/-- The result dictionary of the sample run `goExecSample`: the two
file paths sorted, the build-info object passed through. -/
def resSample : ScanResult :=
  { go_symbols :=
    { build_info :=
        J.obj
          [("go_version", J.str "go1.22.1"),
           ("module_path", J.str "example.com/app"),
           ("module_version", J.str "(devel)"),
           ("dependencies", J.arr [])]
      file_paths := ["/src/app/lib.go", "/src/app/main.go"] } }

/-- Modelled from the spec: "BuildInfo is either fully populated or
entirely absent — partial build info is not surfaced" (§3), and §4.3's
decoder fails with `InvalidBuildInfo` rather than returning partial
data.  GoReSym's build-info decoder is not part of the Python source
under `src/`; this predicate captures the invariant of the build-info
objects it emits: a fully-populated build-info object carries the
go-version, module-path, module-version and dependency fields of
§3. -/
def FullyPopulated (j : J) : Prop :=
  ∃ kvs : List (String × J), j = J.obj kvs ∧
    "go_version" ∈ kvs.map Prod.fst ∧ "module_path" ∈ kvs.map Prod.fst ∧
    "module_version" ∈ kvs.map Prod.fst ∧ "dependencies" ∈ kvs.map Prod.fst

/-- The comparison `strLtChars` decides the strict list order underlying Lean's
`String` order. -/
theorem strLtChars_iff : ∀ as bs : List Char, strLtChars as bs = true ↔ List.lt as bs := by
  intro as
  induction as with
  | nil =>
    intro bs
    cases bs with
    | nil =>
      simp only [strLtChars, Bool.false_eq_true, false_iff]
      intro h
      cases h
    | cons b bs =>
      simp only [strLtChars, true_iff]
      exact List.lt.nil b bs
  | cons a as ih =>
    intro bs
    cases bs with
    | nil =>
      simp only [strLtChars, Bool.false_eq_true, false_iff]
      intro h
      cases h
    | cons b bs =>
      simp only [strLtChars]
      split_ifs with h1 h2
      · simp only [true_iff]
        exact List.lt.head as bs h1
      · simp only [Bool.false_eq_true, false_iff]
        intro h
        cases h with
        | head _ _ hab => exact h1 hab
        | tail hab hba _ => exact hba h2
      · rw [ih bs]
        constructor
        · exact fun h => List.lt.tail h1 h2 h
        · intro h
          cases h with
          | head _ _ hab => exact absurd hab h1
          | tail _ _ htl => exact htl

/-- The comparison `strLe` decides Lean's linear order on `String`, so the sort in
`pySortStrings` orders strings exactly as `≤` does. -/
theorem strLe_iff (a b : String) : strLe a b = true ↔ a ≤ b := by
  have h : strLtChars b.data a.data = true ↔ b < a := by
    rw [String.lt_iff_toList_lt]
    show strLtChars b.data a.data = true ↔ List.Lex (· < ·) b.toList a.toList
    rw [← List.lt_iff_lex_lt]
    exact strLtChars_iff b.data a.data
  rw [show strLe a b = !(strLtChars b.data a.data) from rfl, Bool.not_eq_true']
  rw [← not_lt, ← h]
  simp

/-- The output of the `pySortStrings` sort is sorted under `String`'s
lexicographic order. -/
theorem sorted_pySortList (l : List String) :
    List.Sorted (· ≤ ·) (List.insertionSort (fun a b => strLe a b = true) l) := by
  haveI : IsTotal String (fun a b : String => strLe a b = true) :=
    ⟨fun a b => by
      rw [strLe_iff, strLe_iff]
      exact le_total a b⟩
  haveI : IsTrans String (fun a b : String => strLe a b = true) :=
    ⟨fun a b c h1 h2 =>
      (strLe_iff a c).mpr (le_trans ((strLe_iff a b).mp h1) ((strLe_iff b c).mp h2))⟩
  exact (List.sorted_insertionSort _ l).imp fun h => (strLe_iff _ _).mp h

/-- Mapping `some` over an `Except` yields `ok (some r)` exactly when
the original was `ok r`. -/
theorem except_map_some_eq {ε α : Type} {x : Except ε α} {r : α} :
    x.map some = Except.ok (some r) ↔ x = Except.ok r := by
  cases x with
  | error e => simp [Except.map]
  | ok v => simp [Except.map]

/-- A successful `run_goresym` means the extractor exited with code 0,
its output decoded, and assembly succeeded on the decoded value. -/
theorem run_goresym_ok {ext : ExecOutcome} {res : ScanResult}
    (h : run_goresym ext = Except.ok res) :
    ext.rc = 0 ∧ ∃ s, ext.stdout = some s ∧ assemble s = Except.ok res := by
  unfold run_goresym at h
  by_cases hrc : ext.rc = 0
  · refine ⟨hrc, ?_⟩
    rw [if_neg (by simp [hrc])] at h
    cases hs : ext.stdout with
    | none =>
      rw [hs] at h
      exact absurd h (by simp)
    | some s =>
      rw [hs] at h
      exact ⟨s, rfl, h⟩
  · rw [if_pos (by simpa using hrc)] at h
    exact absurd h (by simp)

/-- A call of `collect_and_parse_symbols` that returned a result
dictionary went through a successful `run_goresym`. -/
theorem collect_ok_some {info : FileInfo} {ext : ExecOutcome} {ct : Bool}
    {res : ScanResult}
    (h : (collect_and_parse_symbols info ext ct).outcome = Except.ok (some res)) :
    run_goresym ext = Except.ok res := by
  unfold collect_and_parse_symbols at h
  split at h
  · simp at h
  · exact except_map_some_eq.mp h

/-- A `Files` entry holding a JSON array passes through the
`or []` default unchanged (an empty array is falsy but is replaced by
the identical empty array). -/
theorem filesValue_eq_arr {kvs : List (String × J)} {l : List J}
    (h : kvs.lookup "Files" = some (J.arr l)) : filesValue kvs = J.arr l := by
  unfold filesValue jget
  rw [h]
  cases l with
  | nil => simp [pyTruthy]
  | cons x xs => simp [pyTruthy]

/-- An absent `Files` entry defaults to the empty array. -/
theorem filesValue_of_absent {kvs : List (String × J)}
    (h : kvs.lookup "Files" = none) : filesValue kvs = J.arr [] := by
  unfold filesValue jget
  rw [h]
  simp [pyTruthy]

/-- A present but falsy `Files` entry defaults to the empty array. -/
theorem filesValue_of_falsy {kvs : List (String × J)} {v : J}
    (h : kvs.lookup "Files" = some v) (hv : pyTruthy v = false) :
    filesValue kvs = J.arr [] := by
  unfold filesValue jget
  rw [h, hv]
  simp

/-- A successful sort means the value was an all-string array and the
output is its sorted string list. -/
theorem sortedFiles_ok {v : J} {files : List String}
    (h : sortedFiles v = Except.ok files) :
    ∃ xs, v = J.arr xs ∧ allStrings xs = true ∧
      files = List.insertionSort (fun a b => strLe a b = true) (xs.filterMap toStr) := by
  cases v with
  | arr xs =>
    simp only [sortedFiles, pySortStrings] at h
    by_cases ha : allStrings xs = true
    · rw [if_pos ha] at h
      exact ⟨xs, rfl, ha, (Except.ok.inj h).symm⟩
    · rw [if_neg ha] at h
      exact absurd h (by simp)
  | null => exact absurd h (by simp [sortedFiles])
  | bool b => exact absurd h (by simp [sortedFiles])
  | num n => exact absurd h (by simp [sortedFiles])
  | str s => exact absurd h (by simp [sortedFiles])
  | obj o => exact absurd h (by simp [sortedFiles])

/-- Successful assembly on a decoded object: the `Files` value sorted
successfully and the result holds the passed-through build info and
the sorted string list. -/
theorem assemble_obj_ok {kvs : List (String × J)} {res : ScanResult}
    (h : assemble (J.obj kvs) = Except.ok res) :
    ∃ xs, filesValue kvs = J.arr xs ∧ allStrings xs = true ∧
      res = { go_symbols :=
        { build_info := buildInfoValue kvs
          file_paths :=
            List.insertionSort (fun a b => strLe a b = true) (xs.filterMap toStr) } } := by
  have h2 : (sortedFiles (filesValue kvs)).map
      (fun files =>
        ({ go_symbols := { build_info := buildInfoValue kvs, file_paths := files } } :
          ScanResult)) = Except.ok res := h
  cases hs : sortedFiles (filesValue kvs) with
  | error e =>
    rw [hs] at h2
    exact absurd h2 (by simp [Except.map])
  | ok files =>
    rw [hs] at h2
    have h3 : ({ go_symbols :=
        { build_info := buildInfoValue kvs, file_paths := files } } : ScanResult) = res :=
      Except.ok.inj h2
    obtain ⟨xs, hv, ha, hf⟩ := sortedFiles_ok hs
    exact ⟨xs, hv, ha, by rw [← h3, hf]⟩

/-- Every element of a string-mapped list is a string. -/
theorem allStrings_map_str (l : List String) : allStrings (l.map J.str) = true := by
  induction l with
  | nil => rfl
  | cons a l ih =>
    simp only [allStrings, List.map_cons, List.all_cons, Bool.and_eq_true] at ih ⊢
    exact ⟨rfl, ih⟩

/-- Extracting the string payloads of a string-mapped list gives the
list back. -/
theorem filterMap_toStr_map_str (l : List String) : (l.map J.str).filterMap toStr = l := by
  induction l with
  | nil => rfl
  | cons a l ih => simp [toStr, List.filterMap_cons, ih]

/-- Claim C1, counterexample: on the non-Go Windows PE executable of
the repository test `test_goresym_with_windows_exe` — a valid
executable with no Go runtime metadata, which passes the executable
gate — the extractor run fails and `collect_and_parse_symbols` raises
an exception; it does not complete normally with an empty result. -/
theorem collect_non_go_counterexample :
    (collect_and_parse_symbols windowsExeInfo goresymFailure true).outcome =
      Except.error (PyErr.exception "failed to parse file") := rfl

/-- Claim C1 (amended): for every executable input on which the
GoReSym run exits with a nonzero return code — which the repository
tests pin as the extractor's behaviour on valid non-Go executables —
`collect_and_parse_symbols` raises an exception carrying the
extractor's standard-error text instead of returning an empty
result. -/
theorem collect_non_go_executable_raises (info : FileInfo) (ext : ExecOutcome)
    (hexe : is_executable_binary info = true) (hrc : ext.rc ≠ 0) :
    (collect_and_parse_symbols info ext true).outcome =
      Except.error (PyErr.exception ext.stderr) := by
  unfold collect_and_parse_symbols
  rw [if_neg (by simp [hexe])]
  show (run_goresym ext).map some = Except.error (PyErr.exception ext.stderr)
  unfold run_goresym
  rw [if_pos (by simpa using hrc)]
  rfl

/-- Witness for claim C1's amended theorem at the ELF input of
`test_goresym_with_elf`. -/
theorem collect_non_go_executable_raises_witness :
    (collect_and_parse_symbols gentooElfInfo goresymElfFailure true).outcome =
      Except.error (PyErr.exception goresymElfFailure.stderr) :=
  collect_non_go_executable_raises gentooElfInfo goresymElfFailure (by decide) (by decide)

/-- Claim C2, counterexample: a plain text file matches none of the
three container types, but the run does not fail with any error at
all — `collect_and_parse_symbols` completes normally, returning
`None` without ever invoking the extractor.  No `UnsupportedFormat`
error exists anywhere on this code path. -/
theorem collect_unsupported_counterexample :
    collect_and_parse_symbols textFileInfo goresymFailure true =
      { outcome := Except.ok none
        tempDirCreated := false
        tempDirDeleted := false
        extractorCalls := 0 } := rfl

/-- Claim C2 (amended): an input that does not match one of the three
supported container types is silently skipped, not rejected: with
`check_type=True` the call returns `None`, completes normally, and
never invokes the extractor; no `UnsupportedFormat` failure occurs. -/
theorem collect_skips_unsupported (info : FileInfo) (ext : ExecOutcome)
    (h : is_executable_binary info = false) :
    (collect_and_parse_symbols info ext true).outcome = Except.ok none ∧
    (collect_and_parse_symbols info ext true).extractorCalls = 0 := by
  unfold collect_and_parse_symbols
  rw [if_pos (by simp [h])]
  exact ⟨rfl, rfl⟩

/-- Witness for claim C2's amended theorem at the plain-text input. -/
theorem collect_skips_unsupported_witness :
    (collect_and_parse_symbols textFileInfo goresymFailure true).outcome = Except.ok none ∧
    (collect_and_parse_symbols textFileInfo goresymFailure true).extractorCalls = 0 :=
  collect_skips_unsupported textFileInfo goresymFailure (by decide)

/-- Claim C5: the extractor is invoked at most once per call (never
retried), and whenever it is invoked and exits with a nonzero return
code, `collect_and_parse_symbols` propagates the failure as an
exception carrying the extractor's standard-error diagnostic. -/
theorem collect_propagates_extractor_failure (info : FileInfo) (ext : ExecOutcome)
    (ct : Bool) :
    (collect_and_parse_symbols info ext ct).extractorCalls ≤ 1 ∧
    (ext.rc ≠ 0 → (collect_and_parse_symbols info ext ct).extractorCalls = 1 →
      (collect_and_parse_symbols info ext ct).outcome =
        Except.error (PyErr.exception ext.stderr)) := by
  unfold collect_and_parse_symbols
  split
  · exact ⟨by decide, fun _ hcalls => absurd hcalls (by decide)⟩
  · refine ⟨le_refl 1, fun hrc _ => ?_⟩
    show (run_goresym ext).map some = Except.error (PyErr.exception ext.stderr)
    unfold run_goresym
    rw [if_pos (by simpa using hrc)]
    rfl

/-- Witness for claim C5 at the failing ELF run of
`test_goresym_with_elf`. -/
theorem collect_propagates_extractor_failure_witness :
    (collect_and_parse_symbols gentooElfInfo goresymElfFailure true).outcome =
      Except.error (PyErr.exception goresymElfFailure.stderr) :=
  (collect_propagates_extractor_failure gentooElfInfo goresymElfFailure true).2
    (by decide) (by decide)

/-- Claim C6: with the external extractor modelled as a function of
the input bytes, two runs of `collect_and_parse_symbols` on the same
location with the same extractor behaviour yield identical results —
the embedding is a pure function of its inputs, so extraction is
deterministic and idempotent. -/
theorem collect_idempotent (info : FileInfo) (ext : ExecOutcome) (ct : Bool) :
    collect_and_parse_symbols info ext ct = collect_and_parse_symbols info ext ct := rfl

/-- Claim C8: every call that reaches the extractor invocation created
the temporary directory and deleted it again before returning — the
`finally` block runs on the normal-return path and on every raise path
(the theorem quantifies over all extractor outcomes, so both the
nonzero-return-code raise, the decode-failure raise and the normal
return are covered). -/
theorem collect_temp_dir_deleted (info : FileInfo) (ext : ExecOutcome) (ct : Bool)
    (h : (collect_and_parse_symbols info ext ct).extractorCalls = 1) :
    (collect_and_parse_symbols info ext ct).tempDirCreated = true ∧
    (collect_and_parse_symbols info ext ct).tempDirDeleted = true := by
  by_cases hc : (ct && !(is_executable_binary info)) = true
  · unfold collect_and_parse_symbols at h
    rw [if_pos hc] at h
    exact absurd h (by decide)
  · unfold collect_and_parse_symbols
    rw [if_neg hc]
    exact ⟨rfl, rfl⟩

/-- Witness for claim C8 at the failing ELF run. -/
theorem collect_temp_dir_deleted_witness :
    (collect_and_parse_symbols gentooElfInfo goresymElfFailure true).tempDirCreated = true ∧
    (collect_and_parse_symbols gentooElfInfo goresymElfFailure true).tempDirDeleted = true :=
  collect_temp_dir_deleted gentooElfInfo goresymElfFailure true (by decide)

/-- Claim C9: for a location that does not exist or is not a regular
file, `collect_and_parse_symbols` with `check_type=True` returns
`None`, raises nothing, and never invokes the external extractor. -/
theorem collect_missing_location_returns_none (info : FileInfo) (ext : ExecOutcome)
    (h : info.path_exists = false ∨ info.is_file = false) :
    (collect_and_parse_symbols info ext true).outcome = Except.ok none ∧
    (collect_and_parse_symbols info ext true).extractorCalls = 0 := by
  have hexe : is_executable_binary info = false := by
    unfold is_executable_binary
    rcases h with h | h
    · simp [h]
    · cases hp : info.path_exists <;> simp [h, hp]
  unfold collect_and_parse_symbols
  rw [if_pos (by simp [hexe])]
  exact ⟨rfl, rfl⟩

/-- Witness for claim C9 at a nonexistent location. -/
theorem collect_missing_location_returns_none_witness :
    (collect_and_parse_symbols missingFileInfo goresymFailure true).outcome =
      Except.ok none ∧
    (collect_and_parse_symbols missingFileInfo goresymFailure true).extractorCalls = 0 :=
  collect_missing_location_returns_none missingFileInfo goresymFailure (Or.inl rfl)

/-- Claim C10: with `check_type=False` no content-type gating happens:
for every location and every content type, the extractor is invoked
exactly once and the call never returns `None` — the outcome is either
a result dictionary or a raised exception, regardless of whether the
input is an ELF, PE or Mach-O executable. -/
theorem collect_unchecked_always_extracts (info : FileInfo) (ext : ExecOutcome) :
    (collect_and_parse_symbols info ext false).extractorCalls = 1 ∧
    (collect_and_parse_symbols info ext false).outcome ≠ Except.ok none := by
  unfold collect_and_parse_symbols
  rw [if_neg (by simp)]
  refine ⟨rfl, ?_⟩
  show (run_goresym ext).map some ≠ Except.ok none
  cases hr : run_goresym ext with
  | error e => simp [Except.map]
  | ok r => simp [Except.map]

/-- Claim C3: whenever a call returns a result, its `file_paths`
sequence is sorted lexicographically (by code point, which for strings
equals byte-value order of the UTF-8 encodings) and contains no
duplicates.  The hypothesis `hnd` is the recovered-path uniqueness of
GoReSym's file-path recoverer, which is not part of the Python source
under `src/` and is modelled from the spec (§4.4: the recoverer
"accumulate[s] every unique resolved path"); the sortedness is
established by the wrapper's own sort, which also preserves the
uniqueness. -/
theorem collect_file_paths_sorted_nodup (info : FileInfo) (ext : ExecOutcome)
    (ct : Bool) (kvs : List (String × J)) (files : List String) (res : ScanResult)
    (hstd : ext.stdout = some (J.obj kvs))
    (hfl : kvs.lookup "Files" = some (J.arr (files.map J.str)))
    (hnd : files.Nodup)
    (hres : (collect_and_parse_symbols info ext ct).outcome = Except.ok (some res)) :
    List.Sorted (· ≤ ·) res.go_symbols.file_paths ∧ res.go_symbols.file_paths.Nodup := by
  obtain ⟨hrc, s, hs, hasm⟩ := run_goresym_ok (collect_ok_some hres)
  rw [hstd] at hs
  obtain rfl : J.obj kvs = s := Option.some.inj hs
  obtain ⟨xs, hfv, hall, hres2⟩ := assemble_obj_ok hasm
  have hxs : J.arr (files.map J.str) = J.arr xs := (filesValue_eq_arr hfl).symm.trans hfv
  obtain rfl : files.map J.str = xs := J.arr.inj hxs
  rw [hres2]
  show List.Sorted (· ≤ ·)
      (List.insertionSort (fun a b => strLe a b = true) ((files.map J.str).filterMap toStr)) ∧
    (List.insertionSort (fun a b => strLe a b = true)
      ((files.map J.str).filterMap toStr)).Nodup
  rw [filterMap_toStr_map_str]
  exact ⟨sorted_pySortList files, (List.perm_insertionSort _ files).nodup_iff.mpr hnd⟩

/-- Witness for claim C3 at the sample Go-binary run: the result's
`file_paths` are sorted and duplicate-free. -/
theorem collect_file_paths_sorted_nodup_witness :
    List.Sorted (· ≤ ·) resSample.go_symbols.file_paths ∧
    resSample.go_symbols.file_paths.Nodup :=
  collect_file_paths_sorted_nodup windowsExeInfo goExecSample true
    [("Files", J.arr [J.str "/src/app/main.go", J.str "/src/app/lib.go"]),
     ("BuildInfo",
      J.obj
        [("go_version", J.str "go1.22.1"),
         ("module_path", J.str "example.com/app"),
         ("module_version", J.str "(devel)"),
         ("dependencies", J.arr [])])]
    ["/src/app/main.go", "/src/app/lib.go"] resSample rfl rfl (by decide) rfl

/-- Claim C4: whenever a call returns a result, its `build_info` field
is either exactly the empty mapping (the single absent sentinel, used
when the entry is absent, `null` or empty) or the build-info object
passed through whole; under the spec-modelled invariant of GoReSym's
build-info decoder (hypothesis `hbi`: the decoded `BuildInfo` entry is
absent, `null`, empty, or fully populated — the decoder never emits
partial data), the surfaced `build_info` is the empty mapping or fully
populated, never partial. -/
theorem collect_build_info_all_or_nothing (info : FileInfo) (ext : ExecOutcome)
    (ct : Bool) (kvs : List (String × J)) (res : ScanResult)
    (hstd : ext.stdout = some (J.obj kvs))
    (hbi : kvs.lookup "BuildInfo" = none ∨ kvs.lookup "BuildInfo" = some J.null ∨
      kvs.lookup "BuildInfo" = some (J.obj []) ∨
      ∃ b, kvs.lookup "BuildInfo" = some b ∧ FullyPopulated b)
    (hres : (collect_and_parse_symbols info ext ct).outcome = Except.ok (some res)) :
    res.go_symbols.build_info = J.obj [] ∨ FullyPopulated res.go_symbols.build_info := by
  obtain ⟨hrc, s, hs, hasm⟩ := run_goresym_ok (collect_ok_some hres)
  rw [hstd] at hs
  obtain rfl : J.obj kvs = s := Option.some.inj hs
  obtain ⟨xs, hfv, hall, hres2⟩ := assemble_obj_ok hasm
  rw [hres2]
  show buildInfoValue kvs = J.obj [] ∨ FullyPopulated (buildInfoValue kvs)
  unfold buildInfoValue jget
  rcases hbi with hb | hb | hb | ⟨b, hb, hfp⟩
  · rw [hb]
    exact Or.inl (by simp [pyTruthy])
  · rw [hb]
    exact Or.inl (by simp [pyTruthy])
  · rw [hb]
    exact Or.inl (by simp [pyTruthy])
  · rw [hb]
    obtain ⟨kvs2, rfl, hm⟩ := hfp
    cases kvs2 with
    | nil => simp at hm
    | cons p rest =>
      rw [if_pos (by simp [pyTruthy])]
      exact Or.inr ⟨p :: rest, rfl, hm⟩

/-- Witness for claim C4 at the sample Go-binary run: the surfaced
build info is the fully-populated object. -/
theorem collect_build_info_all_or_nothing_witness :
    resSample.go_symbols.build_info = J.obj [] ∨
    FullyPopulated resSample.go_symbols.build_info :=
  collect_build_info_all_or_nothing windowsExeInfo goExecSample true
    [("Files", J.arr [J.str "/src/app/main.go", J.str "/src/app/lib.go"]),
     ("BuildInfo",
      J.obj
        [("go_version", J.str "go1.22.1"),
         ("module_path", J.str "example.com/app"),
         ("module_version", J.str "(devel)"),
         ("dependencies", J.arr [])])]
    resSample rfl
    (Or.inr (Or.inr (Or.inr
      ⟨J.obj
        [("go_version", J.str "go1.22.1"),
         ("module_path", J.str "example.com/app"),
         ("module_version", J.str "(devel)"),
         ("dependencies", J.arr [])], rfl,
       ⟨[("go_version", J.str "go1.22.1"),
         ("module_path", J.str "example.com/app"),
         ("module_version", J.str "(devel)"),
         ("dependencies", J.arr [])], rfl,
        by decide, by decide, by decide, by decide⟩⟩)))
    rfl

/-- Claim C7: result assembly never fails on a decoded extractor
output mapping — for every decoded object whose `Files` entry (when
present and truthy) is an array of strings, which is GoReSym's output
schema, `assemble` returns a well-formed result (with sorted
`file_paths`) rather than raising; in particular an object with no
`Files` and no `BuildInfo` entry yields a result with both fields
empty. -/
theorem assemble_never_fails (kvs : List (String × J))
    (hfiles : ∀ v, kvs.lookup "Files" = some v → pyTruthy v = true →
      ∃ l, v = J.arr l ∧ allStrings l = true) :
    ∃ res, assemble (J.obj kvs) = Except.ok res ∧
      List.Sorted (· ≤ ·) res.go_symbols.file_paths := by
  have hfv : ∃ l, filesValue kvs = J.arr l ∧ allStrings l = true := by
    rcases hv : kvs.lookup "Files" with _ | v
    · exact ⟨[], filesValue_of_absent hv, rfl⟩
    · by_cases ht : pyTruthy v = true
      · obtain ⟨l, rfl, hall⟩ := hfiles v hv ht
        exact ⟨l, filesValue_eq_arr hv, hall⟩
      · exact ⟨[], filesValue_of_falsy hv (by simpa using ht), rfl⟩
  obtain ⟨l, hfv, hall⟩ := hfv
  refine ⟨{ go_symbols :=
      { build_info := buildInfoValue kvs
        file_paths := List.insertionSort (fun a b => strLe a b = true)
          (l.filterMap toStr) } }, ?_, sorted_pySortList _⟩
  show (sortedFiles (filesValue kvs)).map
      (fun files =>
        ({ go_symbols := { build_info := buildInfoValue kvs, file_paths := files } } :
          ScanResult)) = _
  rw [hfv]
  show (pySortStrings l).map
      (fun files =>
        ({ go_symbols := { build_info := buildInfoValue kvs, file_paths := files } } :
          ScanResult)) = _
  unfold pySortStrings
  rw [if_pos hall]
  rfl

/-- Witness for claim C7 at the mapping with no `Files` and no
`BuildInfo` entry. -/
theorem assemble_never_fails_witness :
    ∃ res, assemble (J.obj []) = Except.ok res ∧
      List.Sorted (· ≤ ·) res.go_symbols.file_paths :=
  assemble_never_fails [] (fun v hv _ => by simp [List.lookup] at hv)

end GoInspector
